import Mathlib

/-!
Shallow embedding of the pomodoro timer logic in src/script.js.

Timestamps and durations are modelled as `Int` (JavaScript numbers restricted
to integer values, which is all the timer arithmetic produces).  The nullable
fields `startTime` and `pausedTime` are `Option Int`; JavaScript's coercion of
`null` to `0` in arithmetic, and the `x || 0` idiom (`null` and `0` are both
falsy and yield `0`), are modelled by `Option.getD 0`.  `Math.floor (x / 1000)`
on integers is `Int.fdiv x 1000` (floor division), and `Math.max 0 x` is
`max 0 x`.
-/

namespace Pomodoro

/-- The `timerState` object (script.js lines 6-17). -/
structure TimerState where
  isRunning : Bool
  isPaused : Bool
  isBreak : Bool
  timeRemaining : Int
  focusDuration : Int
  breakDuration : Int
  sessionsCompleted : Int
  totalSeconds : Int
  startTime : Option Int
  pausedTime : Option Int
  deriving DecidableEq, Repr

/-- The initial value of `timerState` (script.js lines 6-17). -/
def initialTimerState : TimerState :=
  { isRunning := false
    isPaused := false
    isBreak := false
    timeRemaining := 25 * 60
    focusDuration := 25 * 60
    breakDuration := 5 * 60
    sessionsCompleted := 0
    totalSeconds := 0
    startTime := none
    pausedTime := none }

/-- `startTimer` state mutation (script.js lines 61-66): early-return when
already running, else set `isRunning`, clear `isPaused`, and set
`startTime = Date.now() - (pausedTime || 0)`.  Note the source does not write
to `pausedTime` here.  `now` is the value of `Date.now()` at the call. -/
def startTimer (now : Int) (s : TimerState) : TimerState :=
  if s.isRunning then s
  else
    { s with
      isRunning := true
      isPaused := false
      startTime := some (now - s.pausedTime.getD 0) }

/-- `togglePause` state mutation (script.js lines 105-116): early-return when
not running, else stop running, mark paused, and record
`pausedTime = Date.now() - startTime`. -/
def togglePause (now : Int) (s : TimerState) : TimerState :=
  if !s.isRunning then s
  else
    { s with
      isRunning := false
      isPaused := true
      pausedTime := some (now - s.startTime.getD 0) }

/-- `resetTimer` state mutation (script.js lines 121-126): clear run/pause
flags and both timestamps, and set `timeRemaining` to `focusDuration`
unconditionally (the source does not branch on `isBreak` here). -/
def resetTimer (s : TimerState) : TimerState :=
  { s with
    isRunning := false
    isPaused := false
    startTime := none
    pausedTime := none
    timeRemaining := s.focusDuration }

/-- `completeTimer` state mutation (script.js lines 141-163): on completing a
focus phase, bump `sessionsCompleted`, add `focusDuration` to `totalSeconds`,
switch to break and load `breakDuration`; on completing a break, add
`breakDuration` to `totalSeconds`, switch to focus and load `focusDuration`;
both branches clear `pausedTime`. -/
def completeTimer (s : TimerState) : TimerState :=
  if !s.isBreak then
    { s with
      sessionsCompleted := s.sessionsCompleted + 1
      totalSeconds := s.totalSeconds + s.focusDuration
      isBreak := true
      timeRemaining := s.breakDuration
      pausedTime := none }
  else
    { s with
      totalSeconds := s.totalSeconds + s.breakDuration
      isBreak := false
      timeRemaining := s.focusDuration
      pausedTime := none }

/-- The remaining-time formula computed by each interval tick
(script.js lines 81-89): `max(0, totalSeconds - Math.floor(elapsedTime/1000))`
with `elapsedTime = Date.now() - startTime` and `totalSeconds` the current
phase's duration (`breakDuration` when `isBreak`, else `focusDuration`). -/
def tickRemaining (now : Int) (s : TimerState) : Int :=
  max 0
    ((if s.isBreak then s.breakDuration else s.focusDuration) -
      Int.fdiv (now - s.startTime.getD 0) 1000)

/-- One execution of the interval callback (script.js lines 74-99): a stale
tick on a non-running state mutates nothing (it only clears its interval);
otherwise `timeRemaining` is recomputed, and if it reached `0` the tick calls
`completeTimer`. -/
def tickStep (now : Int) (s : TimerState) : TimerState :=
  if !s.isRunning then s
  else if tickRemaining now s = 0 then
    completeTimer { s with timeRemaining := tickRemaining now s }
  else
    { s with timeRemaining := tickRemaining now s }

/-- Whether a tick at time `now` fires the phase-completion handler
(script.js line 95: the `timeRemaining === 0` branch of a live tick). -/
def tickFires (now : Int) (s : TimerState) : Bool :=
  s.isRunning && (tickRemaining now s == 0)

/-- The engine commands and the tick event, each carrying the wall-clock
value `Date.now()` observed when it runs. -/
inductive Event where
  | start (now : Int)
  | pause (now : Int)
  | reset
  | tick (now : Int)
  deriving DecidableEq, Repr

/-- Dispatch of a single event to the corresponding handler. -/
def step : Event → TimerState → TimerState
  | Event.start now, s => startTimer now s
  | Event.pause now, s => togglePause now s
  | Event.reset, s => resetTimer s
  | Event.tick now, s => tickStep now s

/-- Whether the given event, run on the given state, fires phase completion. -/
def stepFiresCompletion : Event → TimerState → Bool
  | Event.tick now, s => tickFires now s
  | _, _ => false

/-- Run a sequence of events from a state. -/
def runEvents : List Event → TimerState → TimerState
  | [], s => s
  | e :: es, s => runEvents es (step e s)

/-- Timer state together with the pending delayed auto-start registered by
`completeTimer` via `setTimeout(() => startTimer(), 1000)` (script.js lines
169-171).  The source never stores the timeout handle and never calls
`clearTimeout`, so no command can deregister a pending auto-start. -/
structure SystemState where
  timer : TimerState
  autoStartPending : Bool
  deriving DecidableEq, Repr

/-- A tick at the system level: the completion branch registers the delayed
auto-start (script.js lines 169-171). -/
def tickStepSys (now : Int) (sys : SystemState) : SystemState :=
  { timer := tickStep now sys.timer
    autoStartPending := sys.autoStartPending || tickFires now sys.timer }

/-- `resetTimer` at the system level: it mutates only `timerState` fields
(script.js lines 121-136) and does not cancel a scheduled timeout, so the
pending auto-start flag is untouched. -/
def resetTimerSys (sys : SystemState) : SystemState :=
  { timer := resetTimer sys.timer
    autoStartPending := sys.autoStartPending }

/-- The pending timeout firing: it runs `startTimer` on the current state
(script.js line 170). -/
def fireAutoStart (now : Int) (sys : SystemState) : SystemState :=
  if sys.autoStartPending then
    { timer := startTimer now sys.timer, autoStartPending := false }
  else sys

/-- The persisted key-value store (`localStorage`), restricted to the four
keys the timer reads and writes; `getItem` of an absent key is `null`,
modelled by `none`. -/
structure Store where
  pomodoroFocusDuration : Option String
  pomodoroBreakDuration : Option String
  pomodoroSessionsCompleted : Option String
  pomodoroTotalSeconds : Option String
  deriving DecidableEq, Repr

/-- A store with no keys set. -/
def emptyStore : Store :=
  { pomodoroFocusDuration := none
    pomodoroBreakDuration := none
    pomodoroSessionsCompleted := none
    pomodoroTotalSeconds := none }

/-- Model of `Number.parseInt` on a string in base 10: skip leading
whitespace, read an optional sign and then a maximal run of decimal digits;
the result is `NaN` (modelled as `none`) when no digits are found, and any
trailing non-digit characters are ignored. -/
def parseIntJS (str : String) : Option Int :=
  let cs := str.data.dropWhile fun c =>
    c = ' ' || c = '\t' || c = '\n' || c = '\r'
  let signAndRest : Int × List Char :=
    match cs with
    | '-' :: rest => (-1, rest)
    | '+' :: rest => (1, rest)
    | _ => (1, cs)
  let digits := signAndRest.2.takeWhile Char.isDigit
  if digits.isEmpty then none
  else
    some (signAndRest.1 *
      (digits.foldl (fun a c => a * 10 + (c.toNat - 48)) 0 : Nat))

/-- Model of `localStorage.getItem(key) || dflt` followed by use as a
`parseInt` argument (script.js lines 241-244): an absent key (`null`) and the
empty string are falsy and give the numeric default, which `parseInt` coerces
to its decimal string; any other stored string is kept as is. -/
def getItemOr (v : Option String) (dflt : Int) : String :=
  match v with
  | none => toString dflt
  | some str => if str = "" then toString dflt else str

/-- The four values `loadSettings` computes from the store (script.js lines
240-256); `none` models `NaN` propagated from `parseInt`. -/
structure LoadResult where
  focusDuration : Option Int
  breakDuration : Option Int
  sessionsCompleted : Option Int
  totalSeconds : Option Int
  deriving DecidableEq, Repr

/-- `loadSettings` (script.js lines 240-256): each field is
`parseInt(getItem(key) || default)`, with the duration fields multiplied by
60 (`NaN * 60` stays `NaN`). -/
def loadSettings (st : Store) : LoadResult :=
  { focusDuration :=
      (parseIntJS (getItemOr st.pomodoroFocusDuration 25)).map (· * 60)
    breakDuration :=
      (parseIntJS (getItemOr st.pomodoroBreakDuration 5)).map (· * 60)
    sessionsCompleted := parseIntJS (getItemOr st.pomodoroSessionsCompleted 0)
    totalSeconds := parseIntJS (getItemOr st.pomodoroTotalSeconds 0) }

/-- `saveSettings` state mutation (script.js lines 222-235), on inputs whose
`Number.parseInt` succeeded with the given minute values.  The source applies
no validation whatsoever between parsing and assignment: both durations and
`timeRemaining` are overwritten unconditionally. -/
def saveSettings (focusMins breakMins : Int) (s : TimerState) : TimerState :=
  { s with
    focusDuration := focusMins * 60
    breakDuration := breakMins * 60
    timeRemaining := focusMins * 60 }

/-- The two `localStorage.setItem` writes of `saveSettings` (script.js lines
226-227); `setItem` coerces the number to its decimal string. -/
def saveSettingsStore (focusMins breakMins : Int) (st : Store) : Store :=
  { st with
    pomodoroFocusDuration := some (toString focusMins)
    pomodoroBreakDuration := some (toString breakMins) }

/-- A state part-way through a break phase, reachable by completing a focus
phase from the initial state and ticking into the break. -/
def breakPhaseState : TimerState :=
  { initialTimerState with isBreak := true, timeRemaining := 300 }

/-- Completing the initial 1500-second focus phase (start at time 0, tick at
1500000 ms) and then resetting during the 1-second auto-start delay. -/
def resurrectScenario : SystemState :=
  resetTimerSys
    (tickStepSys 1500000
      { timer := startTimer 0 initialTimerState, autoStartPending := false })

end Pomodoro

namespace Pomodoro

/-- Helper: completeTimer leaves both configured durations unchanged. -/
theorem completeTimer_durations (s : TimerState) :
    (completeTimer s).focusDuration = s.focusDuration ∧
    (completeTimer s).breakDuration = s.breakDuration := by
  cases h : s.isBreak <;> simp [completeTimer, h]

/-- Helper: completeTimer never decreases the session counter or the
cumulative seconds, given nonnegative durations. -/
theorem completeTimer_counters_mono (s : TimerState)
    (hf : 0 ≤ s.focusDuration) (hb : 0 ≤ s.breakDuration) :
    s.sessionsCompleted ≤ (completeTimer s).sessionsCompleted ∧
    s.totalSeconds ≤ (completeTimer s).totalSeconds := by
  cases h : s.isBreak <;> simp [completeTimer, h] <;> omega

/-- Helper: no event changes the configured durations. -/
theorem step_durations (e : Event) (s : TimerState) :
    (step e s).focusDuration = s.focusDuration ∧
    (step e s).breakDuration = s.breakDuration := by
  cases e with
  | start now => simp only [step, startTimer]; split_ifs <;> simp
  | pause now => simp only [step, togglePause]; split_ifs <;> simp
  | reset => simp [step, resetTimer]
  | tick now =>
    simp only [step, tickStep]
    split_ifs with h1 h2
    · exact ⟨rfl, rfl⟩
    · exact completeTimer_durations _
    · exact ⟨rfl, rfl⟩

/-- Helper: a single event never decreases the counters. -/
theorem step_counters_mono (e : Event) (s : TimerState)
    (hf : 0 ≤ s.focusDuration) (hb : 0 ≤ s.breakDuration) :
    s.sessionsCompleted ≤ (step e s).sessionsCompleted ∧
    s.totalSeconds ≤ (step e s).totalSeconds := by
  cases e with
  | start now => simp only [step, startTimer]; split_ifs <;> simp
  | pause now => simp only [step, togglePause]; split_ifs <;> simp
  | reset => simp [step, resetTimer]
  | tick now =>
    simp only [step, tickStep]
    split_ifs with h1 h2
    · exact ⟨le_refl _, le_refl _⟩
    · exact completeTimer_counters_mono
        { s with timeRemaining := tickRemaining now s } hf hb
    · exact ⟨le_refl _, le_refl _⟩

/-- Helper: an event that does not fire phase completion leaves both
counters exactly unchanged. -/
theorem step_counters_unchanged_without_completion (e : Event) (s : TimerState)
    (h : stepFiresCompletion e s = false) :
    (step e s).sessionsCompleted = s.sessionsCompleted ∧
    (step e s).totalSeconds = s.totalSeconds := by
  cases e with
  | start now => simp only [step, startTimer]; split_ifs <;> simp
  | pause now => simp only [step, togglePause]; split_ifs <;> simp
  | reset => simp [step, resetTimer]
  | tick now =>
    cases hr : s.isRunning with
    | false => simp [step, tickStep, hr]
    | true =>
      have hne : tickRemaining now s ≠ 0 := by
        simp [stepFiresCompletion, tickFires, hr] at h
        exact h
      simp [step, tickStep, hr, hne]

/-- Helper: over any event sequence the counters are monotone. -/
theorem runEvents_counters_mono (evs : List Event) : ∀ (s : TimerState),
    0 ≤ s.focusDuration → 0 ≤ s.breakDuration →
    s.sessionsCompleted ≤ (runEvents evs s).sessionsCompleted ∧
    s.totalSeconds ≤ (runEvents evs s).totalSeconds := by
  induction evs with
  | nil => intro s _ _; exact ⟨le_refl _, le_refl _⟩
  | cons e es ih =>
    intro s hf hb
    have hd := step_durations e s
    have hm := step_counters_mono e s hf hb
    have ht := ih (step e s) (by rw [hd.1]; exact hf) (by rw [hd.2]; exact hb)
    exact ⟨le_trans hm.1 ht.1, le_trans hm.2 ht.2⟩

/-- Claim C1: while the timer is running, a tick computes
`timeRemaining = max 0 (phaseDuration - floor(elapsedMs / 1000))` with
`elapsedMs = now - startTime` and the phase duration chosen by `isBreak`;
and because sub-second elapsed time is floored, as long as fewer than
`1000 * d` milliseconds have elapsed for a positive target duration `d`, the
remaining time stays positive, the completion branch does not fire, and the
tick only updates `timeRemaining`. -/
theorem tick_floors_and_never_completes_early (now : Int) (s : TimerState)
    (t0 d : Int) (hrun : s.isRunning = true) (hst : s.startTime = some t0)
    (hd : (if s.isBreak then s.breakDuration else s.focusDuration) = d)
    (_hdpos : 0 < d) (hel : now - t0 < 1000 * d) :
    tickRemaining now s = max 0 (d - Int.fdiv (now - t0) 1000) ∧
    0 < tickRemaining now s ∧
    tickFires now s = false ∧
    tickStep now s = { s with timeRemaining := tickRemaining now s } := by
  have h1 : tickRemaining now s = max 0 (d - Int.fdiv (now - t0) 1000) := by
    simp [tickRemaining, hst, hd]
  have h2 : Int.fdiv (now - t0) 1000 < d := by
    rw [Int.fdiv_eq_ediv _ (by norm_num : (0:Int) ≤ 1000)]
    exact (Int.ediv_lt_iff_lt_mul (by norm_num)).2 (by linarith)
  have h3 : 0 < tickRemaining now s := by
    rw [h1]
    have hpos : 0 < d - Int.fdiv (now - t0) 1000 := by omega
    exact lt_of_lt_of_le hpos (le_max_right _ _)
  have h4 : tickFires now s = false := by
    have hne := h3.ne'
    simp only [tickFires, hrun, Bool.true_and]
    simpa using hne
  refine ⟨h1, h3, h4, ?_⟩
  simp [tickStep, hrun, h3.ne']

/-- Witness for claim C1: half a second into the initial 1500-second focus
phase, the tick leaves a positive remaining time and fires no completion. -/
theorem tick_floors_and_never_completes_early_witness :
    0 < tickRemaining 500 (startTimer 0 initialTimerState) ∧
    tickFires 500 (startTimer 0 initialTimerState) = false :=
  have h := tick_floors_and_never_completes_early 500
    (startTimer 0 initialTimerState) 0 1500 (by decide) (by decide)
    (by decide) (by decide) (by decide)
  ⟨h.2.1, h.2.2.1⟩

/-- Claim C2: phase completion bumps the session counter exactly on focus
completions, adds the completed phase's duration to the cumulative total,
flips the phase, loads the next phase's full duration, and clears
`pausedTime`. -/
theorem completeTimer_phase_accounting (s : TimerState) :
    (completeTimer s).sessionsCompleted =
      s.sessionsCompleted + (if s.isBreak then 0 else 1) ∧
    (completeTimer s).totalSeconds =
      s.totalSeconds + (if s.isBreak then s.breakDuration else s.focusDuration) ∧
    (completeTimer s).isBreak = !s.isBreak ∧
    (completeTimer s).timeRemaining =
      (if s.isBreak then s.focusDuration else s.breakDuration) ∧
    (completeTimer s).pausedTime = none := by
  cases h : s.isBreak <;> simp [completeTimer, h]

/-- Claim C3 evaluated at the failing input: resetting during a break phase
(break duration 300) yields a non-running, non-paused state with cleared
timestamps, but `timeRemaining` is set to `focusDuration` (1500), not to the
current phase's duration (300) as the claim states. -/
theorem reset_during_break_restores_focusDuration :
    breakPhaseState.isBreak = true ∧
    breakPhaseState.breakDuration = 300 ∧
    (resetTimer breakPhaseState).timeRemaining = 1500 ∧
    (resetTimer breakPhaseState).timeRemaining ≠ breakPhaseState.breakDuration ∧
    (resetTimer breakPhaseState).isRunning = false ∧
    (resetTimer breakPhaseState).isPaused = false ∧
    (resetTimer breakPhaseState).startTime = none ∧
    (resetTimer breakPhaseState).pausedTime = none := by
  decide

/-- Claim C4 evaluated at the failing input: a settings change with
`focusMinutes = 0` is silently accepted — the prior focus duration (1500) is
overwritten with `0`, `timeRemaining` becomes `0`, and the zero value is
persisted; no rejection path exists in the source. -/
theorem saveSettings_zero_focus_accepted :
    initialTimerState.focusDuration = 1500 ∧
    (saveSettings 0 5 initialTimerState).focusDuration = 0 ∧
    (saveSettings 0 5 initialTimerState).timeRemaining = 0 ∧
    (saveSettingsStore 0 5 emptyStore).pomodoroFocusDuration = some "0" := by
  decide

/-- Claim C5: pausing at time `n1` and resuming at time `n2` shifts the whole
countdown by exactly the pause length `n2 - n1`: a tick at any time `n` after
the resume computes the same remaining time as a tick at `n - (n2 - n1)`
would have without the pause, so the pause duration is never added to the
countdown. -/
theorem pause_resume_no_drift (s : TimerState) (n1 n2 n : Int)
    (h : s.isRunning = true) :
    tickRemaining n (startTimer n2 (togglePause n1 s)) =
      tickRemaining (n - (n2 - n1)) s := by
  simp [togglePause, startTimer, h, tickRemaining]
  have harg : n - (n2 - (n1 - s.startTime.getD 0)) =
      n - (n2 - n1) - s.startTime.getD 0 := by ring
  rw [harg]

/-- Witness for claim C5: pause at 400 ms and resume at 1000 ms; a tick at
2000 ms matches the unpaused tick at 1400 ms. -/
theorem pause_resume_no_drift_witness :
    tickRemaining 2000
        (startTimer 1000 (togglePause 400 (startTimer 0 initialTimerState))) =
      tickRemaining (2000 - (1000 - 400)) (startTimer 0 initialTimerState) :=
  pause_resume_no_drift (startTimer 0 initialTimerState) 400 1000 2000
    (by decide)

/-- Claim C6: start is idempotent — a second start at the same instant is the
identity, and start on an already-running state changes nothing. -/
theorem startTimer_idempotent (now : Int) (s : TimerState) :
    startTimer now (startTimer now s) = startTimer now s ∧
    (s.isRunning = true → startTimer now s = s) := by
  constructor
  · cases h : s.isRunning <;> simp [startTimer, h]
  · intro h; simp [startTimer, h]

/-- Witness for claim C6: a start issued on the already-started initial state
is a no-op. -/
theorem startTimer_idempotent_witness :
    startTimer 5 (startTimer 0 initialTimerState) =
      startTimer 0 initialTimerState :=
  (startTimer_idempotent 5 (startTimer 0 initialTimerState)).2 (by decide)

/-- Claim C7 evaluated at the failing input: complete the initial focus phase
at 1500 s and reset during the 1-second auto-start delay; the reset leaves
the timer idle but does not deregister the pending auto-start (the source
stores no timeout handle and never calls clearTimeout), so when the delayed
callback fires it runs startTimer on the idle state and the timer is running
again. -/
theorem stale_auto_start_resurrects_after_reset :
    resurrectScenario.timer.isRunning = false ∧
    resurrectScenario.autoStartPending = true ∧
    (fireAutoStart 1500500 resurrectScenario).timer.isRunning = true := by
  decide

/-- Claim C8 counterexample: resuming from a paused state with
`pausedTime = 5000` at `now = 10000` sets `startTime = 5000` as claimed, but
`pausedTime` remains `some 5000` — it is not cleared by start. -/
theorem startTimer_pausedTime_not_cleared :
    (startTimer 10000 { initialTimerState with
        isPaused := true, pausedTime := some 5000 }).pausedTime = some 5000 ∧
    (startTimer 10000 { initialTimerState with
        isPaused := true, pausedTime := some 5000 }).pausedTime ≠ none ∧
    (startTimer 10000 { initialTimerState with
        isPaused := true, pausedTime := some 5000 }).startTime = some 5000 := by
  decide

/-- Claim C8 as amended: on every start from a non-running state,
`startTime` becomes `now - (pausedTime or 0)`, the run flags are set, and
`pausedTime` is left unchanged rather than cleared (it is cleared later by
completeTimer or resetTimer). -/
theorem startTimer_sets_startTime_keeps_pausedTime (now : Int) (s : TimerState)
    (h : s.isRunning = false) :
    (startTimer now s).startTime = some (now - s.pausedTime.getD 0) ∧
    (startTimer now s).pausedTime = s.pausedTime ∧
    (startTimer now s).isRunning = true ∧
    (startTimer now s).isPaused = false := by
  simp [startTimer, h]

/-- Witness for the amended claim C8: a resume at 10000 ms with a saved
pause offset of 5000 ms records startTime 5000. -/
theorem startTimer_sets_startTime_keeps_pausedTime_witness :
    (startTimer 10000 { initialTimerState with
        isPaused := true, pausedTime := some 5000 }).startTime = some 5000 :=
  (startTimer_sets_startTime_keeps_pausedTime 10000
    { initialTimerState with isPaused := true, pausedTime := some 5000 }
    (by decide)).1

/-- Claim C9 evaluated at the failing input: loading from an empty store
returns the defaults (1500, 300, 0, 0), but a stored value that does not
parse as an integer (here the string NaN, which the source itself persists
after a non-numeric settings input) is kept by the truthiness check and
yields NaN (modelled none) instead of the default. -/
theorem loadSettings_unparsable_not_defaulted :
    loadSettings emptyStore =
      { focusDuration := some 1500, breakDuration := some 300,
        sessionsCompleted := some 0, totalSeconds := some 0 } ∧
    (loadSettings { emptyStore with
        pomodoroFocusDuration := some "NaN" }).focusDuration = none ∧
    (loadSettings { emptyStore with
        pomodoroFocusDuration := some "NaN" }).focusDuration ≠ some 1500 := by
  decide

/-- Claim C10: over any sequence of start, pause, reset and tick events from
a state with positive durations, `sessionsCompleted` and `totalSeconds`
never decrease; any single event that does not fire phase completion leaves
them exactly unchanged; and reset leaves them exactly unchanged. -/
theorem counters_monotone_only_at_completion (evs : List Event)
    (s : TimerState) (hf : 0 < s.focusDuration) (hb : 0 < s.breakDuration) :
    s.sessionsCompleted ≤ (runEvents evs s).sessionsCompleted ∧
    s.totalSeconds ≤ (runEvents evs s).totalSeconds ∧
    (∀ e t, stepFiresCompletion e t = false →
      (step e t).sessionsCompleted = t.sessionsCompleted ∧
      (step e t).totalSeconds = t.totalSeconds) ∧
    (resetTimer s).sessionsCompleted = s.sessionsCompleted ∧
    (resetTimer s).totalSeconds = s.totalSeconds :=
  ⟨(runEvents_counters_mono evs s hf.le hb.le).1,
   (runEvents_counters_mono evs s hf.le hb.le).2,
   fun e t ht => step_counters_unchanged_without_completion e t ht,
   rfl, rfl⟩

/-- Witness for claim C10: a start, tick, reset run from the initial state
does not decrease the session counter. -/
theorem counters_monotone_only_at_completion_witness :
    initialTimerState.sessionsCompleted ≤
      (runEvents [Event.start 0, Event.tick 500, Event.reset]
        initialTimerState).sessionsCompleted :=
  (counters_monotone_only_at_completion
    [Event.start 0, Event.tick 500, Event.reset] initialTimerState
    (by decide) (by decide)).1

end Pomodoro
